import Mathlib

/-!
Verification of the payment dispatch worker (`src/worker/worker.py`) and the
submission gateway (`src/api/main.py`) of the rdb-2025 payment system.

The Redis store is modelled as an explicit state (`Store`); pipelined Redis
commands are a command list (`RedisCmd`) executed by a fold (`execPipe`),
mirroring `pipe = redis.pipeline(); ...; pipe.execute()`.  HTTP attempts
against a processor are modelled by their observable outcome
(`AttemptOutcome`); randomness (`random.random()`) and the clock
(`time.time()`) are explicit parameters.
-/

namespace PaymentSystem

/-- Outcome of one `session.post(f"{url}/payments", ...)` call inside
`process_with_retry` (worker.py lines 81-96): either an HTTP response with a
status code, or a transport error (`aiohttp.ClientError`,
`asyncio.TimeoutError`, or any other exception raised by the call). -/
inductive AttemptOutcome
  | response (status : Nat)
  | transportError
deriving DecidableEq

/-- How `process_with_retry` treats one attempt. -/
inductive AttemptClass
  | success
  | retryableFailure
deriving DecidableEq

/-- worker.py lines 81-96: `if resp.status == 200:` returns success; any other
status falls through the loop (a retry), and both `except` clauses `continue`
(a retry). -/
def classifyAttempt (o : AttemptOutcome) : AttemptClass :=
  match o with
  | .response s => if s = 200 then .success else .retryableFailure
  | .transportError => .retryableFailure

/-- worker.py line 77: `backoff = BACKOFF_BASE * (2 ** attempt) * (0.5 + random.random())`.
`r` is the value drawn by `random.random()`. -/
def backoff (base : ℚ) (attempt : Nat) (r : ℚ) : ℚ :=
  base * 2 ^ attempt * (1/2 + r)

/-- Observable trace of one `process_with_retry` run: final success flag, how
many HTTP attempts were performed, and the sequence of backoff sleeps. -/
structure RetryRun where
  success : Bool
  attemptsMade : Nat
  sleeps : List ℚ
deriving DecidableEq

/-- The `for attempt in range(MAX_RETRIES)` loop of worker.py lines 74-96,
by recursion on the remaining iteration budget.  `outcomes i` is what the
`i`-th HTTP attempt would observe; `r i` is the random draw used if a sleep
precedes attempt `i` (`if attempt > 0`, line 76). -/
def retryFrom (base : ℚ) (outcomes : Nat → AttemptOutcome) (r : Nat → ℚ) :
    Nat → Nat → RetryRun
  | 0, _ => ⟨false, 0, []⟩
  | n + 1, attempt =>
    let pre : List ℚ := if 0 < attempt then [backoff base attempt (r attempt)] else []
    match classifyAttempt (outcomes attempt) with
    | .success => ⟨true, 1, pre⟩
    | .retryableFailure =>
      let rest := retryFrom base outcomes r n (attempt + 1)
      ⟨rest.success, rest.attemptsMade + 1, pre ++ rest.sleeps⟩

/-- worker.py lines 65-99: returns `(success, processor_type, correlation_id)`
(line 84 on success, line 99 after the loop); the `RetryRun` component records
the attempts and sleeps the run performed. -/
def process_with_retry (base : ℚ) (maxRetries : Nat) (outcomes : Nat → AttemptOutcome)
    (r : Nat → ℚ) (processor_type correlation_id : String) :
    (Bool × String × String) × RetryRun :=
  let run := retryFrom base outcomes r maxRetries 0
  ((run.success, processor_type, correlation_id), run)

/-- The Redis state touched by the gateway and the worker.  Redis sets are
duplicate-free lists of members; the `summary` hash holds the four counters
used by the code; `locks` is the keyspace of `processing:*` keys
(key, value, expiry-seconds); `payment_queue` is the task list. -/
structure Store where
  pending_payments : List String
  processed_payments : List String
  failed_payments : List String
  submitted_payments : List String
  summary_success : Int
  summary_success_amount : ℚ
  summary_fallback : Int
  summary_fallback_amount : ℚ
  locks : List (String × String × Nat)
  payment_queue : List String
deriving DecidableEq

/-- Redis SADD of one member (no-op when already present). -/
def saddList (xs : List String) (m : String) : List String :=
  if m ∈ xs then xs else xs ++ [m]

/-- Redis SREM of several members. -/
def sremList (xs : List String) (ms : List String) : List String :=
  xs.filter (fun x => decide (x ∉ ms))

/-- The Redis commands this codebase queues on pipelines. -/
inductive RedisCmd
  | srem (key : String) (members : List String)
  | sadd (key : String) (member : String)
  | hincrby (key field : String) (n : Int)
  | hincrbyfloat (key field : String) (x : ℚ)
  | unlink (keys : List String)
  | set (key value : String) (ex : Nat)
  | rpush (key value : String)
deriving DecidableEq

def Store.updateSet (s : Store) (key : String) (f : List String → List String) : Store :=
  if key = "pending_payments" then { s with pending_payments := f s.pending_payments }
  else if key = "processed_payments" then { s with processed_payments := f s.processed_payments }
  else if key = "failed_payments" then { s with failed_payments := f s.failed_payments }
  else if key = "submitted_payments" then { s with submitted_payments := f s.submitted_payments }
  else s

def Store.applyHincrby (s : Store) (key field : String) (n : Int) : Store :=
  if key = "summary" ∧ field = "success" then
    { s with summary_success := s.summary_success + n }
  else if key = "summary" ∧ field = "fallback" then
    { s with summary_fallback := s.summary_fallback + n }
  else s

def Store.applyHincrbyfloat (s : Store) (key field : String) (x : ℚ) : Store :=
  if key = "summary" ∧ field = "success_amount" then
    { s with summary_success_amount := s.summary_success_amount + x }
  else if key = "summary" ∧ field = "fallback_amount" then
    { s with summary_fallback_amount := s.summary_fallback_amount + x }
  else s

def execCmd (s : Store) : RedisCmd → Store
  | .srem key ms => s.updateSet key (fun xs => sremList xs ms)
  | .sadd key m => s.updateSet key (fun xs => saddList xs m)
  | .hincrby key field n => s.applyHincrby key field n
  | .hincrbyfloat key field x => s.applyHincrbyfloat key field x
  | .unlink ks => { s with locks := s.locks.filter (fun e => decide (e.1 ∉ ks)) }
  | .set k v ex => { s with locks := s.locks.filter (fun e => decide (e.1 ≠ k)) ++ [(k, v, ex)] }
  | .rpush key v =>
    if key = "payment_queue" then { s with payment_queue := s.payment_queue ++ [v] } else s

/-- Model of `pipe.execute()`: one atomic round trip applying the queued
commands in order. -/
def execPipe (s : Store) (cmds : List RedisCmd) : Store := cmds.foldl execCmd s

/-- Redis EXISTS on a `processing:*` key. -/
def lockExists (s : Store) (key : String) : Bool :=
  s.locks.any (fun e => decide (e.1 = key))

/-- worker.py lines 132-143: the commands queued for one outcome tuple
`(success, processor_type, corr_id, amount)`. -/
def statsCmdsFor (o : Bool × String × String × ℚ) : List RedisCmd :=
  [RedisCmd.srem "pending_payments" [o.2.2.1]] ++
  (if o.1 then
    [RedisCmd.sadd "processed_payments" o.2.2.1] ++
    (if o.2.1 = "default" then
      [RedisCmd.hincrby "summary" "success" 1,
       RedisCmd.hincrbyfloat "summary" "success_amount" o.2.2.2]
    else if o.2.1 = "fallback" then
      [RedisCmd.hincrby "summary" "fallback" 1,
       RedisCmd.hincrbyfloat "summary" "fallback_amount" o.2.2.2]
    else [])
  else
    [RedisCmd.sadd "failed_payments" o.2.2.1])

/-- The stats loop of worker.py lines 132-143 over the whole outcome list. -/
def statsCmds : List (Bool × String × String × ℚ) → List RedisCmd
  | [] => []
  | o :: rest => statsCmdsFor o ++ statsCmds rest

/-- worker.py lines 146-150.  Note the nesting in the source: the
`if pending_to_remove:` statement sits inside the `if locks_to_release:`
block, so the `srem` of `pending_to_remove` is queued only when at least one
lock is also being released. -/
def lockCmds (locks_to_release pending_to_remove : List String) : List RedisCmd :=
  if locks_to_release ≠ [] then
    RedisCmd.unlink locks_to_release ::
      (if pending_to_remove ≠ [] then
        [RedisCmd.srem "pending_payments" pending_to_remove]
      else [])
  else []

/-- worker.py lines 121-155: early return when all three arguments are empty,
otherwise build one pipeline from the stats loop and the lock-release block
and execute it in a single round trip. -/
def update_stats_and_release_locks (s : Store)
    (stats_updates : List (Bool × String × String × ℚ))
    (locks_to_release pending_to_remove : List String) : Store :=
  if stats_updates = [] ∧ locks_to_release = [] ∧ pending_to_remove = [] then s
  else execPipe s (statsCmds stats_updates ++ lockCmds locks_to_release pending_to_remove)

/-- worker.py lines 237-264: read the `pending_payments` members, keep those
with no `processing:<id>` lock, and hand them to
`update_stats_and_release_locks` as `pending_to_remove` with empty stats and
empty lock list. -/
def check_orphaned_payments (s : Store) : Store :=
  if s.pending_payments = [] then s
  else
    let orphaned :=
      s.pending_payments.filter (fun corr_id => !lockExists s ("processing:" ++ corr_id))
    if orphaned = [] then s
    else update_stats_and_release_locks s [] [] orphaned

/-- Number of `(True, "default")` outcomes in a list (how often the code
increments `summary.success`). -/
def defaultSuccessCount : List (Bool × String × String × ℚ) → Int
  | [] => 0
  | o :: rest => (if o.1 = true ∧ o.2.1 = "default" then 1 else 0) + defaultSuccessCount rest

/-- Total amount of the `(True, "default")` outcomes. -/
def defaultSuccessAmount : List (Bool × String × String × ℚ) → ℚ
  | [] => 0
  | o :: rest => (if o.1 = true ∧ o.2.1 = "default" then o.2.2.2 else 0) + defaultSuccessAmount rest

/-- Number of `(True, "fallback")` outcomes. -/
def fallbackSuccessCount : List (Bool × String × String × ℚ) → Int
  | [] => 0
  | o :: rest => (if o.1 = true ∧ o.2.1 = "fallback" then 1 else 0) + fallbackSuccessCount rest

/-- Total amount of the `(True, "fallback")` outcomes. -/
def fallbackSuccessAmount : List (Bool × String × String × ℚ) → ℚ
  | [] => 0
  | o :: rest => (if o.1 = true ∧ o.2.1 = "fallback" then o.2.2.2 else 0) + fallbackSuccessAmount rest

/-- A store holding one pending payment `c1` whose worker crashed: no
`processing:c1` lock exists, `c1` is in no terminal set. -/
def orphanStore : Store :=
  { pending_payments := ["c1"], processed_payments := [], failed_payments := [],
    submitted_payments := ["c1"], summary_success := 0, summary_success_amount := 0,
    summary_fallback := 0, summary_fallback_amount := 0, locks := [], payment_queue := [] }

/-- A store with two pending payments and their processing locks, about to
receive one success and one failure outcome. -/
def demoStore : Store :=
  { pending_payments := ["a", "b"], processed_payments := [], failed_payments := [],
    submitted_payments := ["a", "b"], summary_success := 0, summary_success_amount := 0,
    summary_fallback := 0, summary_fallback_amount := 0,
    locks := [("processing:a", "pa", 300), ("processing:b", "pb", 300)],
    payment_queue := [] }

/-- Outcome list: payment `a` succeeded on the default processor (amount 50),
payment `b` failed on both processors (amount 7). -/
def usDemo : List (Bool × String × String × ℚ) :=
  [(true, "default", "a", 50), (false, "fallback", "b", 7)]

/-- api/main.py line 112: the EXISTS check on the processing lock. -/
def createPaymentCheck (s : Store) (correlationId : String) : Bool :=
  lockExists s ("processing:" ++ correlationId)

/-- api/main.py lines 123-140: the pipeline queued when no lock was seen — a
plain SET of the lock key with 300s expiry (not a conditional SET), RPUSH of
the serialized task, and SADD into `submitted_payments`, executed in one
round trip. -/
def createPaymentCommit (s : Store) (correlationId processing_id task_json : String) : Store :=
  execPipe s
    [RedisCmd.set ("processing:" ++ correlationId) processing_id 300,
     RedisCmd.rpush "payment_queue" task_json,
     RedisCmd.sadd "submitted_payments" correlationId]

/-- The gateway's response body (api/main.py `PaymentResponse`). -/
structure PaymentResponse where
  status : String
  correlationId : String
  instanceName : String
deriving DecidableEq

/-- api/main.py lines 101-146: `create_payment` run in isolation.  `now` is
the `time.time()` reading; `task_json` is the serialized `task_data`. -/
def create_payment (s : Store) (correlationId : String) (amount : ℚ)
    (instance_id : String) (now : ℚ) (task_json : String) : PaymentResponse × Store :=
  let processing_id := correlationId ++ ":" ++ instance_id ++ ":" ++ toString now
  if createPaymentCheck s correlationId then
    (⟨"already_queued", correlationId, instance_id⟩, s)
  else
    (⟨"queued", correlationId, instance_id⟩,
     createPaymentCommit s correlationId processing_id task_json)

/-- One in-flight `create_payment` request: pc 0 = about to run the EXISTS
check (line 112), pc 1 = check done, about to return early or run the commit
pipeline (lines 113-140), pc 2 = finished. -/
structure GatewayThread where
  correlationId : String
  instance_id : String
  processing_id : String
  task_json : String
  pc : Nat
  sawExists : Bool
  response : Option PaymentResponse
deriving DecidableEq

/-- One atomic store access of a gateway instance running `create_payment`.
The EXISTS check and the SET/RPUSH/SADD pipeline are separate round trips in
the source, so another instance may interleave between them. -/
def gatewayStep (t : GatewayThread) (s : Store) : GatewayThread × Store :=
  match t.pc with
  | 0 => ({ t with pc := 1, sawExists := createPaymentCheck s t.correlationId }, s)
  | 1 =>
    if t.sawExists then
      ({ t with
          pc := 2,
          response := some ⟨"already_queued", t.correlationId, t.instance_id⟩ }, s)
    else
      ({ t with
          pc := 2,
          response := some ⟨"queued", t.correlationId, t.instance_id⟩ },
       createPaymentCommit s t.correlationId t.processing_id t.task_json)
  | _ => (t, s)

/-- Run two concurrent gateway instances under a schedule: `true` steps
instance A, `false` steps instance B. -/
def runTwoGateways : List Bool → GatewayThread × GatewayThread × Store →
    GatewayThread × GatewayThread × Store
  | [], st => st
  | pickA :: rest, (a, b, s) =>
    if pickA then
      let r := gatewayStep a s
      runTwoGateways rest (r.1, b, r.2)
    else
      let r := gatewayStep b s
      runTwoGateways rest (a, r.1, r.2)

def emptyStore : Store :=
  { pending_payments := [], processed_payments := [], failed_payments := [],
    submitted_payments := [], summary_success := 0, summary_success_amount := 0,
    summary_fallback := 0, summary_fallback_amount := 0, locks := [], payment_queue := [] }

/-- Gateway instance api1 submitting payment `c1`. -/
def gwA : GatewayThread :=
  { correlationId := "c1", instance_id := "api1", processing_id := "c1:api1:t1",
    task_json := "taskA", pc := 0, sawExists := false, response := none }

/-- Gateway instance api2 concurrently submitting the same payment `c1`. -/
def gwB : GatewayThread :=
  { correlationId := "c1", instance_id := "api2", processing_id := "c1:api2:t2",
    task_json := "taskB", pc := 0, sawExists := false, response := none }

/-- The raced execution: A runs its EXISTS check, then B runs its EXISTS
check (both see no lock), then A commits, then B commits. -/
def racedRun : GatewayThread × GatewayThread × Store :=
  runTwoGateways [true, false, true, false] (gwA, gwB, emptyStore)

/-- A decoded payment task (the dict produced by `parse_payment`; `attempts`
is `none` when the dict carries no such key). -/
structure PaymentTask where
  correlationId : String
  amount : ℚ
  timestamp : ℚ
  processingId : String
  attempts : Option Nat
deriving DecidableEq

/-- What `asyncio.gather(..., return_exceptions=True)` hands back per task:
either the captured exception or the `(success, label, correlationId)`
tuple. -/
inductive DispatchResult
  | exn
  | result (r : Bool × String × String)
deriving DecidableEq

/-- worker.py line 204: `(not isinstance(res, Exception)) and bool(res[0])`. -/
def default_ok (d : DispatchResult) : Bool :=
  match d with
  | .exn => false
  | .result r => r.1

/-- worker.py line 182: `isinstance(result, Exception) or
(isinstance(result, tuple) and not result[0])`. -/
def dispatchFailed (d : DispatchResult) : Bool :=
  match d with
  | .exn => true
  | .result r => !r.1

/-- worker.py lines 179-194: the fallback dispatch happens exactly for the
tasks whose default result `failed`; `some f` plays the role of membership in
`fallback_by_index` with result `f`. -/
def fallbackAttempt (d f : DispatchResult) : Option DispatchResult :=
  if dispatchFailed d then some f else none

/-- worker.py lines 196-222: consolidation of one payment's outcome tuple. -/
def consolidateOne (pmt : PaymentTask) (d : DispatchResult)
    (fOpt : Option DispatchResult) : Bool × String × String × ℚ :=
  if default_ok d then (true, "default", pmt.correlationId, pmt.amount)
  else
    match fOpt with
    | some fb =>
      if default_ok fb then (true, "fallback", pmt.correlationId, pmt.amount)
      else (false, "fallback", pmt.correlationId, pmt.amount)
    | none => (false, "default", pmt.correlationId, pmt.amount)

/-- The three write lists `process_batch` accumulates (worker.py 190-222). -/
structure BatchWrites where
  stats_updates : List (Bool × String × String × ℚ)
  locks_to_release : List String
  pending_to_remove : List String
deriving DecidableEq

/-- worker.py lines 174-222: per-task consolidation over a decoded batch,
given the gathered default and fallback dispatch results. -/
def process_batch_writes (payments : List PaymentTask)
    (defaultResults fallbackResults : List DispatchResult) : BatchWrites :=
  { stats_updates :=
      (payments.zip (defaultResults.zip fallbackResults)).map
        (fun pr => consolidateOne pr.1 pr.2.1 (fallbackAttempt pr.2.1 pr.2.2)),
    locks_to_release := payments.map (fun pmt => "processing:" ++ pmt.correlationId),
    pending_to_remove := payments.map (fun pmt => pmt.correlationId) }

/-- worker.py lines 158-224: dispatch a decoded batch and record the
consolidated outcomes (an empty batch writes nothing). -/
def process_batch (s : Store) (payments : List PaymentTask)
    (defaultResults fallbackResults : List DispatchResult) : Store :=
  if payments = [] then s
  else
    let w := process_batch_writes payments defaultResults fallbackResults
    update_stats_and_release_locks s w.stats_updates w.locks_to_release w.pending_to_remove

/-- The two enqueued copies of `c1` after the raced submission, parsed. -/
def racedPayments : List PaymentTask :=
  [{ correlationId := "c1", amount := 100, timestamp := 0,
     processingId := "c1:api1:t1", attempts := none },
   { correlationId := "c1", amount := 100, timestamp := 0,
     processingId := "c1:api2:t2", attempts := none }]

/-- The worker processes the raced batch: the first copy succeeds on the
default processor, the second fails on default and on fallback. -/
def racedFinal : Store :=
  process_batch racedRun.2.2 racedPayments
    [DispatchResult.result (true, "default", "c1"),
     DispatchResult.result (false, "default", "c1")]
    [DispatchResult.result (false, "fallback", "c1"),
     DispatchResult.result (false, "fallback", "c1")]

/-- Python's `os.getenv`: lookup of a key in the process environment. -/
def getenv (env : List (String × String)) (key : String) : Option String :=
  (env.find? (fun e => decide (e.1 = key))).map (fun e => e.2)

/-- worker.py line 20: `os.getenv("DEFAULT_PROCESSOR_URL")` — no default, no
presence check anywhere in the module. -/
def DEFAULT_PROCESSOR_URL (env : List (String × String)) : Option String :=
  getenv env "DEFAULT_PROCESSOR_URL"

/-- worker.py line 21: `os.getenv("FALLBACK_PROCESSOR_URL")`. -/
def FALLBACK_PROCESSOR_URL (env : List (String × String)) : Option String :=
  getenv env "FALLBACK_PROCESSOR_URL"

/-- worker.py lines 266-286 (`connect_redis`): the `for attempt in range(5)`
loop; `ping i` tells whether the i-th connection attempt's `ping()` succeeds;
on the last failed attempt return `None`, otherwise sleep 1s and retry. -/
def connectAux (ping : Nat → Bool) : Nat → Nat → Option Unit
  | 0, _ => none
  | n + 1, i => if ping i then some () else connectAux ping n (i + 1)

def connect_redis (ping : Nat → Bool) : Option Unit := connectAux ping 5 0

/-- What one startup iteration of the worker's outer `while True:` loop can
do (worker.py lines 314-330): `exitFatal` would be stopping the process with
a startup failure; `sleepRetry n` is `await asyncio.sleep(n); continue`;
`enterRunning` proceeds into the running state carrying whatever the
processor-URL environment lookups produced (they are never validated). -/
inductive MainAction
  | exitFatal
  | sleepRetry (seconds : Nat)
  | enterRunning (default_url fallback_url : Option String)
deriving DecidableEq

/-- worker.py lines 316-322: connect; if `connect_redis` returned `None`, log
"Retrying in 5 seconds...", sleep 5s and continue the in-process loop;
otherwise enter the running state. -/
def mainStartupStep (env : List (String × String)) (ping : Nat → Bool) : MainAction :=
  match connect_redis ping with
  | none => MainAction.sleepRetry 5
  | some _ =>
    MainAction.enterRunning (DEFAULT_PROCESSOR_URL env) (FALLBACK_PROCESSOR_URL env)

/-- Python's `str.split("|")` over the string's characters (structural so
that concrete payloads evaluate): splits at every pipe character. -/
def splitPipe : List Char → List (List Char)
  | [] => [[]]
  | c :: rest =>
    let r := splitPipe rest
    if c = '|' then [] :: r
    else
      match r with
      | [] => [[c]]
      | h :: t => (c :: h) :: t

/-- The call `task_json.split("|")` as a list of strings. -/
def splitPipeStr (str : String) : List String :=
  (splitPipe str.toList).map List.asString

/-- worker.py lines 49-63 (`parse_payment`).  `jsonResult` is what
`json.loads(task_json)` produces (`none` = JSONDecodeError); `parseFloat` is
Python's `float(...)` (`none` = ValueError); `now1` is the `time.time()`
reading on line 60 and `now2_repr` the formatted reading of the separate
`time.time()` call inside the f-string on line 61.  An overall `none` models
the exception escaping `parse_payment` (the task is then dropped by
`process_batch`).  Note the legacy dict carries exactly four keys:
correlationId, amount, timestamp, processingId — no `attempts` key. -/
def parse_payment (jsonResult : Option PaymentTask) (task_json : String)
    (parseFloat : String → Option ℚ) (now1 : ℚ) (now2_repr : String) :
    Option PaymentTask :=
  match jsonResult with
  | some t => some t
  | none =>
    match splitPipeStr task_json with
    | [correlation_id, amount_str] =>
      match parseFloat amount_str with
      | some amount =>
        some { correlationId := correlation_id, amount := amount, timestamp := now1,
               processingId := "legacy:" ++ correlation_id ++ ":" ++ now2_repr,
               attempts := none }
      | none => none
    | _ => none

/-- The `float` parser used in concrete examples. -/
def pfDemo : String → Option ℚ := fun str => if str = "5" then some 5 else none

/-- A task of the consolidation example. -/
def p1Demo : PaymentTask :=
  { correlationId := "c7", amount := 100, timestamp := 0, processingId := "p",
    attempts := none }

lemma retryFrom_allFail (base : ℚ) (outcomes : Nat → AttemptOutcome) (r : Nat → ℚ) :
    ∀ n a, (∀ i, a ≤ i → i < a + n → classifyAttempt (outcomes i) = .retryableFailure) →
      (retryFrom base outcomes r n a).success = false ∧
      (retryFrom base outcomes r n a).attemptsMade = n := by
  intro n
  induction n with
  | zero => intro a _; simp [retryFrom]
  | succ m ih =>
    intro a h
    have ha : classifyAttempt (outcomes a) = .retryableFailure :=
      h a le_rfl (by omega)
    have hrest := ih (a + 1) (fun i h1 h2 => h i (by omega) (by omega))
    simp only [retryFrom, ha]
    exact ⟨hrest.1, by simp [hrest.2]⟩

lemma retryFrom_allFail_sleeps (base : ℚ) (outcomes : Nat → AttemptOutcome) (r : Nat → ℚ) :
    ∀ n a, 1 ≤ a →
      (∀ i, a ≤ i → i < a + n → classifyAttempt (outcomes i) = .retryableFailure) →
      (retryFrom base outcomes r n a).sleeps
        = (List.range' a n).map (fun k => backoff base k (r k)) := by
  intro n
  induction n with
  | zero => intro a _ _; simp [retryFrom]
  | succ m ih =>
    intro a ha h
    have hfa : classifyAttempt (outcomes a) = .retryableFailure :=
      h a le_rfl (by omega)
    have hrest := ih (a + 1) (by omega) (fun i h1 h2 => h i (by omega) (by omega))
    have hpos : 0 < a := ha
    simp only [retryFrom, hfa, if_pos hpos, hrest, List.range'_succ, List.map_cons,
      List.cons_append, List.nil_append]

/-- C4 (counterexample): the claim says an attempt succeeds exactly when the
HTTP status is in the 2xx class, but `process_with_retry` tests
`resp.status == 200` only: status 201 is a 2xx status yet is classified as a
retryable failure. -/
theorem classify_201_counterexample :
    classifyAttempt (AttemptOutcome.response 201) = AttemptClass.retryableFailure ∧
    ¬ (classifyAttempt (AttemptOutcome.response 201) = AttemptClass.success
        ↔ 200 ≤ 201 ∧ 201 < 300) := by
  decide

/-- C4 (amended): a single processor attempt succeeds exactly when the HTTP
response status equals 200; every other received status and every transport
error is classified as a retryable failure. -/
theorem classifyAttempt_success_iff_200 (o : AttemptOutcome) :
    (classifyAttempt o = AttemptClass.success ↔ o = AttemptOutcome.response 200) ∧
    (classifyAttempt o = AttemptClass.retryableFailure ↔ o ≠ AttemptOutcome.response 200) := by
  cases o with
  | response s =>
    by_cases hs : s = 200 <;> simp [classifyAttempt, hs]
  | transportError => simp [classifyAttempt]

/-- C5 (counterexample): the claim says the sleep before the k-th retry is
`base * 2^(k-1) * (0.5 + r)` for some `r ∈ [0,1)`.  With the default base 0.5
and random draw 1/2, the code sleeps 1 second before the first retry
(`base * 2^1 * (0.5 + 1/2)`), which is not of the claimed form
`0.5 * 2^0 * (0.5 + r)` for any `r ∈ [0,1)`. -/
theorem backoff_first_retry_counterexample :
    (process_with_retry (1/2) 3 (fun _ => AttemptOutcome.transportError)
        (fun _ => 1/2) "default" "c1").2.sleeps.head? = some 1 ∧
    ¬ ∃ r0 : ℚ, 0 ≤ r0 ∧ r0 < 1 ∧ (1 : ℚ) = (1/2) * 2 ^ (1 - 1) * (1/2 + r0) := by
  constructor
  · simp only [process_with_retry, retryFrom, classifyAttempt, backoff]
    norm_num
  · rintro ⟨r0, h0, h1, heq⟩
    norm_num at heq
    linarith

/-- C5 (amended): no sleep occurs before the first attempt, and the sleep
before the k-th retry (k ≥ 1) is `base * 2^k * (0.5 + r k)` where `r k` is
that retry's random draw: on a run where every attempt fails, the sleep trace
is exactly that schedule for k = 1, …, maxRetries − 1. -/
theorem retry_backoff_schedule (base : ℚ) (m : Nat) (outcomes : Nat → AttemptOutcome)
    (r : Nat → ℚ) (pt cid : String)
    (hfail : ∀ i, i < m → classifyAttempt (outcomes i) = AttemptClass.retryableFailure) :
    (process_with_retry base m outcomes r pt cid).2.sleeps
      = (List.range' 1 (m - 1)).map (fun k => base * 2 ^ k * (1/2 + r k)) := by
  cases m with
  | zero => simp [process_with_retry, retryFrom]
  | succ n =>
    have h0 : classifyAttempt (outcomes 0) = AttemptClass.retryableFailure :=
      hfail 0 (by omega)
    have hrest := retryFrom_allFail_sleeps base outcomes r n 1 le_rfl
      (fun i h1 h2 => hfail i (by omega))
    simp only [process_with_retry, retryFrom, h0, Nat.lt_irrefl, if_false,
      Nat.succ_sub_one, hrest, List.nil_append]
    simp [backoff]

/-- C5 (witness for the amended theorem). -/
theorem retry_backoff_schedule_witness :
    (process_with_retry (1/2) 3 (fun _ => AttemptOutcome.transportError)
        (fun _ => 0) "default" "c1").2.sleeps
      = (List.range' 1 2).map (fun k => (1/2 : ℚ) * 2 ^ k * (1/2 + 0)) :=
  retry_backoff_schedule (1/2) 3 (fun _ => AttemptOutcome.transportError)
    (fun _ => 0) "default" "c1" (fun i _ => rfl)

/-- C6: `process_with_retry` always returns a `(success, processorLabel,
correlationId)` tuple carrying exactly the given label and correlationId (it
is a total function: transport failures are absorbed, never propagated), and
when every attempt fails it performs exactly maxRetries attempts and returns
`(False, processorLabel, correlationId)`. -/
theorem process_with_retry_exhausts_and_returns (base : ℚ) (m : Nat)
    (outcomes : Nat → AttemptOutcome) (r : Nat → ℚ) (pt cid : String) :
    ((process_with_retry base m outcomes r pt cid).1.2.1 = pt ∧
     (process_with_retry base m outcomes r pt cid).1.2.2 = cid) ∧
    ((∀ i, i < m → classifyAttempt (outcomes i) = AttemptClass.retryableFailure) →
      (process_with_retry base m outcomes r pt cid).1 = (false, pt, cid) ∧
      (process_with_retry base m outcomes r pt cid).2.attemptsMade = m) := by
  refine ⟨⟨rfl, rfl⟩, fun hfail => ?_⟩
  have h := retryFrom_allFail base outcomes r m 0 (fun i h1 h2 => hfail i (by omega))
  simp only [process_with_retry]
  exact ⟨by simp [h.1], h.2⟩

/-- C6 (witness): a processor that always times out is attempted exactly 3
times (the default MAX_RETRIES) and the call returns `(False, label, id)`. -/
theorem process_with_retry_exhausts_witness :
    (process_with_retry (1/2) 3 (fun _ => AttemptOutcome.transportError)
        (fun _ => 0) "fallback" "c9").1 = (false, "fallback", "c9") ∧
    (process_with_retry (1/2) 3 (fun _ => AttemptOutcome.transportError)
        (fun _ => 0) "fallback" "c9").2.attemptsMade = 3 :=
  (process_with_retry_exhausts_and_returns (1/2) 3 (fun _ => AttemptOutcome.transportError)
    (fun _ => 0) "fallback" "c9").2 (fun i _ => rfl)

lemma execPipe_append (s : Store) (c1 c2 : List RedisCmd) :
    execPipe s (c1 ++ c2) = execPipe (execPipe s c1) c2 :=
  List.foldl_append _ _ _ _

lemma mem_sremList {x : String} {xs ms : List String} :
    x ∈ sremList xs ms ↔ x ∈ xs ∧ x ∉ ms := by
  simp [sremList]

lemma mem_saddList {x : String} {xs : List String} {m : String} :
    x ∈ saddList xs m ↔ x ∈ xs ∨ x = m := by
  by_cases h : m ∈ xs
  · simp only [saddList, if_pos h]
    constructor
    · exact Or.inl
    · rintro (hx | rfl)
      · exact hx
      · exact h
  · simp [saddList, h]

lemma applyOutcome_eq (s : Store) (b : Bool) (pt c : String) (a : ℚ) :
    execPipe s (statsCmdsFor (b, pt, c, a)) =
      { s with
        pending_payments := sremList s.pending_payments [c],
        processed_payments :=
          if b then saddList s.processed_payments c else s.processed_payments,
        failed_payments :=
          if b then s.failed_payments else saddList s.failed_payments c,
        summary_success :=
          s.summary_success + (if b = true ∧ pt = "default" then 1 else 0),
        summary_success_amount :=
          s.summary_success_amount + (if b = true ∧ pt = "default" then a else 0),
        summary_fallback :=
          s.summary_fallback + (if b = true ∧ pt = "fallback" then 1 else 0),
        summary_fallback_amount :=
          s.summary_fallback_amount + (if b = true ∧ pt = "fallback" then a else 0) } := by
  cases b with
  | false =>
    simp [statsCmdsFor, execPipe, execCmd, Store.updateSet]
  | true =>
    by_cases hd : pt = "default"
    · simp [statsCmdsFor, execPipe, execCmd, Store.updateSet, Store.applyHincrby,
        Store.applyHincrbyfloat, hd]
    · by_cases hf : pt = "fallback"
      · simp [statsCmdsFor, execPipe, execCmd, Store.updateSet, Store.applyHincrby,
          Store.applyHincrbyfloat, hd, hf]
      · simp [statsCmdsFor, execPipe, execCmd, Store.updateSet, Store.applyHincrby,
          Store.applyHincrbyfloat, hd, hf]

lemma execPipe_statsCmds_cons (s : Store) (o : Bool × String × String × ℚ)
    (rest : List (Bool × String × String × ℚ)) :
    execPipe s (statsCmds (o :: rest))
      = execPipe (execPipe s (statsCmdsFor o)) (statsCmds rest) := by
  rw [statsCmds, execPipe_append]

lemma statsPipe_pending_notMem (x : String) :
    ∀ (us : List (Bool × String × String × ℚ)) (s : Store),
      x ∉ s.pending_payments → x ∉ (execPipe s (statsCmds us)).pending_payments := by
  intro us
  induction us with
  | nil => intro s h; simpa [statsCmds, execPipe] using h
  | cons o rest ih =>
    intro s h
    rcases o with ⟨b, pt, c, a⟩
    rw [execPipe_statsCmds_cons]
    apply ih
    rw [applyOutcome_eq]
    intro hx
    exact h (mem_sremList.mp hx).1

lemma statsPipe_removes_pending (x : String) :
    ∀ (us : List (Bool × String × String × ℚ)) (s : Store),
      (∃ o ∈ us, o.2.2.1 = x) → x ∉ (execPipe s (statsCmds us)).pending_payments := by
  intro us
  induction us with
  | nil => intro s h; simp at h
  | cons o rest ih =>
    intro s hex
    rcases o with ⟨b, pt, c, a⟩
    rw [execPipe_statsCmds_cons]
    rcases hex with ⟨o', ho', hx⟩
    rcases List.mem_cons.mp ho' with rfl | htail
    · apply statsPipe_pending_notMem
      rw [applyOutcome_eq]
      intro hmem
      have hne := (mem_sremList.mp hmem).2
      exact hne (List.mem_singleton.mpr hx.symm)
    · exact ih _ ⟨o', htail, hx⟩

lemma statsPipe_processed_mono (x : String) :
    ∀ (us : List (Bool × String × String × ℚ)) (s : Store),
      x ∈ s.processed_payments → x ∈ (execPipe s (statsCmds us)).processed_payments := by
  intro us
  induction us with
  | nil => intro s h; simpa [statsCmds, execPipe] using h
  | cons o rest ih =>
    intro s h
    rcases o with ⟨b, pt, c, a⟩
    rw [execPipe_statsCmds_cons]
    apply ih
    rw [applyOutcome_eq]
    cases b <;> simp [mem_saddList, h]

lemma statsPipe_adds_processed (x : String) :
    ∀ (us : List (Bool × String × String × ℚ)) (s : Store),
      (∃ o ∈ us, o.1 = true ∧ o.2.2.1 = x) →
      x ∈ (execPipe s (statsCmds us)).processed_payments := by
  intro us
  induction us with
  | nil => intro s h; simp at h
  | cons o rest ih =>
    intro s hex
    rcases o with ⟨b, pt, c, a⟩
    rw [execPipe_statsCmds_cons]
    rcases hex with ⟨o', ho', hb, hx⟩
    rcases List.mem_cons.mp ho' with rfl | htail
    · apply statsPipe_processed_mono
      rw [applyOutcome_eq]
      simp only at hb hx
      simp [hb, hx, mem_saddList]
    · exact ih _ ⟨o', htail, hb, hx⟩

lemma statsPipe_failed_mono (x : String) :
    ∀ (us : List (Bool × String × String × ℚ)) (s : Store),
      x ∈ s.failed_payments → x ∈ (execPipe s (statsCmds us)).failed_payments := by
  intro us
  induction us with
  | nil => intro s h; simpa [statsCmds, execPipe] using h
  | cons o rest ih =>
    intro s h
    rcases o with ⟨b, pt, c, a⟩
    rw [execPipe_statsCmds_cons]
    apply ih
    rw [applyOutcome_eq]
    cases b <;> simp [mem_saddList, h]

lemma statsPipe_adds_failed (x : String) :
    ∀ (us : List (Bool × String × String × ℚ)) (s : Store),
      (∃ o ∈ us, o.1 = false ∧ o.2.2.1 = x) →
      x ∈ (execPipe s (statsCmds us)).failed_payments := by
  intro us
  induction us with
  | nil => intro s h; simp at h
  | cons o rest ih =>
    intro s hex
    rcases o with ⟨b, pt, c, a⟩
    rw [execPipe_statsCmds_cons]
    rcases hex with ⟨o', ho', hb, hx⟩
    rcases List.mem_cons.mp ho' with rfl | htail
    · apply statsPipe_failed_mono
      rw [applyOutcome_eq]
      simp only at hb hx
      simp [hb, hx, mem_saddList]
    · exact ih _ ⟨o', htail, hb, hx⟩

lemma statsPipe_success_count :
    ∀ (us : List (Bool × String × String × ℚ)) (s : Store),
      (execPipe s (statsCmds us)).summary_success
        = s.summary_success + defaultSuccessCount us := by
  intro us
  induction us with
  | nil => intro s; simp [statsCmds, execPipe, defaultSuccessCount]
  | cons o rest ih =>
    intro s
    rcases o with ⟨b, pt, c, a⟩
    rw [execPipe_statsCmds_cons, applyOutcome_eq, ih]
    simp [defaultSuccessCount, add_assoc]

lemma statsPipe_success_amount :
    ∀ (us : List (Bool × String × String × ℚ)) (s : Store),
      (execPipe s (statsCmds us)).summary_success_amount
        = s.summary_success_amount + defaultSuccessAmount us := by
  intro us
  induction us with
  | nil => intro s; simp [statsCmds, execPipe, defaultSuccessAmount]
  | cons o rest ih =>
    intro s
    rcases o with ⟨b, pt, c, a⟩
    rw [execPipe_statsCmds_cons, applyOutcome_eq, ih]
    simp [defaultSuccessAmount, add_assoc]

lemma statsPipe_fallback_count :
    ∀ (us : List (Bool × String × String × ℚ)) (s : Store),
      (execPipe s (statsCmds us)).summary_fallback
        = s.summary_fallback + fallbackSuccessCount us := by
  intro us
  induction us with
  | nil => intro s; simp [statsCmds, execPipe, fallbackSuccessCount]
  | cons o rest ih =>
    intro s
    rcases o with ⟨b, pt, c, a⟩
    rw [execPipe_statsCmds_cons, applyOutcome_eq, ih]
    simp [fallbackSuccessCount, add_assoc]

lemma statsPipe_fallback_amount :
    ∀ (us : List (Bool × String × String × ℚ)) (s : Store),
      (execPipe s (statsCmds us)).summary_fallback_amount
        = s.summary_fallback_amount + fallbackSuccessAmount us := by
  intro us
  induction us with
  | nil => intro s; simp [statsCmds, execPipe, fallbackSuccessAmount]
  | cons o rest ih =>
    intro s
    rcases o with ⟨b, pt, c, a⟩
    rw [execPipe_statsCmds_cons, applyOutcome_eq, ih]
    simp [fallbackSuccessAmount, add_assoc]

lemma lockPipe_fields (s : Store) (l p : List String) :
    (execPipe s (lockCmds l p)).processed_payments = s.processed_payments ∧
    (execPipe s (lockCmds l p)).failed_payments = s.failed_payments ∧
    (execPipe s (lockCmds l p)).summary_success = s.summary_success ∧
    (execPipe s (lockCmds l p)).summary_success_amount = s.summary_success_amount ∧
    (execPipe s (lockCmds l p)).summary_fallback = s.summary_fallback ∧
    (execPipe s (lockCmds l p)).summary_fallback_amount = s.summary_fallback_amount := by
  by_cases hl : l = [] <;> by_cases hp : p = [] <;>
    simp [lockCmds, hl, hp, execPipe, execCmd, Store.updateSet]

lemma lockPipe_pending_notMem (s : Store) (l p : List String) (x : String)
    (h : x ∉ s.pending_payments) :
    x ∉ (execPipe s (lockCmds l p)).pending_payments := by
  by_cases hl : l = []
  · simp [lockCmds, hl, execPipe, h]
  · by_cases hp : p = []
    · simpa [lockCmds, hl, hp, execPipe, execCmd] using h
    · have hgoal : (execPipe s (lockCmds l p)).pending_payments
          = sremList s.pending_payments p := by
        simp [lockCmds, hl, hp, execPipe, execCmd, Store.updateSet]
      rw [hgoal]
      intro hx
      exact h (mem_sremList.mp hx).1

/-- C1 (code-bug evidence): with one pending payment `c1` and no
`processing:c1` lock, a reconciliation pass leaves the store unchanged — the
orphan is NOT removed from the pending set.  The `srem` of
`pending_to_remove` is nested under `if locks_to_release:` in worker.py lines
146-150 and `check_orphaned_payments` passes an empty lock list, so the
executed pipeline is empty.  (The pass indeed never adds to processed/failed;
it is the removal the claim and the code comments promise that is missing.) -/
theorem check_orphaned_payments_leaves_orphan :
    "c1" ∈ orphanStore.pending_payments ∧
    lockExists orphanStore "processing:c1" = false ∧
    check_orphaned_payments orphanStore = orphanStore := by
  refine ⟨by decide, by decide, rfl⟩

/-- C8: `update_stats_and_release_locks` applies all its writes in a single
pipelined round trip, and for each outcome: the correlationId is removed from
`pending`; on success it is added to `processed` with exactly one increment
of the matching processor's count and amount counters in the same round trip;
on failure it is added to `failed` and contributes no counter increment (the
counters change by exactly the count/amounts of the matching successes). -/
theorem update_stats_effects (s : Store)
    (us : List (Bool × String × String × ℚ)) (l p : List String) :
    (¬ (us = [] ∧ l = [] ∧ p = []) →
      update_stats_and_release_locks s us l p
        = execPipe s (statsCmds us ++ lockCmds l p)) ∧
    (∀ o ∈ us, o.2.2.1 ∉ (update_stats_and_release_locks s us l p).pending_payments) ∧
    (∀ o ∈ us, o.1 = true →
      o.2.2.1 ∈ (update_stats_and_release_locks s us l p).processed_payments) ∧
    (∀ o ∈ us, o.1 = false →
      o.2.2.1 ∈ (update_stats_and_release_locks s us l p).failed_payments) ∧
    (update_stats_and_release_locks s us l p).summary_success
        = s.summary_success + defaultSuccessCount us ∧
    (update_stats_and_release_locks s us l p).summary_success_amount
        = s.summary_success_amount + defaultSuccessAmount us ∧
    (update_stats_and_release_locks s us l p).summary_fallback
        = s.summary_fallback + fallbackSuccessCount us ∧
    (update_stats_and_release_locks s us l p).summary_fallback_amount
        = s.summary_fallback_amount + fallbackSuccessAmount us := by
  by_cases hempty : us = [] ∧ l = [] ∧ p = []
  · obtain ⟨hu, hl, hp⟩ := hempty
    subst hu; subst hl; subst hp
    refine ⟨fun h => absurd ⟨rfl, rfl, rfl⟩ h, ?_, ?_, ?_, ?_, ?_, ?_, ?_⟩ <;>
      simp [update_stats_and_release_locks, defaultSuccessCount, defaultSuccessAmount,
        fallbackSuccessCount, fallbackSuccessAmount]
  · have hrun : update_stats_and_release_locks s us l p
        = execPipe (execPipe s (statsCmds us)) (lockCmds l p) := by
      rw [update_stats_and_release_locks, if_neg hempty, execPipe_append]
    have hf := lockPipe_fields (execPipe s (statsCmds us)) l p
    refine ⟨fun h => by rw [update_stats_and_release_locks, if_neg hempty],
      ?_, ?_, ?_, ?_, ?_, ?_, ?_⟩
    · intro o ho
      rw [hrun]
      exact lockPipe_pending_notMem _ l p _ (statsPipe_removes_pending _ us s ⟨o, ho, rfl⟩)
    · intro o ho hb
      rw [hrun, hf.1]
      exact statsPipe_adds_processed _ us s ⟨o, ho, hb, rfl⟩
    · intro o ho hb
      rw [hrun, hf.2.1]
      exact statsPipe_adds_failed _ us s ⟨o, ho, hb, rfl⟩
    · rw [hrun, hf.2.2.1, statsPipe_success_count]
    · rw [hrun, hf.2.2.2.1, statsPipe_success_amount]
    · rw [hrun, hf.2.2.2.2.1, statsPipe_fallback_count]
    · rw [hrun, hf.2.2.2.2.2, statsPipe_fallback_amount]

/-- C8 (witness): one success on default and one double failure, recorded
against a store holding both payments as pending with their locks. -/
theorem update_stats_effects_witness :
    "a" ∉ (update_stats_and_release_locks demoStore usDemo
      ["processing:a", "processing:b"] ["a", "b"]).pending_payments ∧
    "a" ∈ (update_stats_and_release_locks demoStore usDemo
      ["processing:a", "processing:b"] ["a", "b"]).processed_payments ∧
    "b" ∈ (update_stats_and_release_locks demoStore usDemo
      ["processing:a", "processing:b"] ["a", "b"]).failed_payments ∧
    (update_stats_and_release_locks demoStore usDemo
      ["processing:a", "processing:b"] ["a", "b"]).summary_success
        = demoStore.summary_success + defaultSuccessCount usDemo :=
  have h := update_stats_effects demoStore usDemo
    ["processing:a", "processing:b"] ["a", "b"]
  ⟨h.2.1 (true, "default", "a", 50) (List.mem_cons_self _ _),
   h.2.2.1 (true, "default", "a", 50) (List.mem_cons_self _ _) rfl,
   h.2.2.2.1 (false, "fallback", "b", 7)
     (List.mem_cons_of_mem _ (List.mem_cons_self _ _)) rfl,
   h.2.2.2.2.1⟩

/-- C2 (code-bug evidence): lock acquisition in `create_payment` is an EXISTS
check followed by a plain SET in a later pipeline — not a single atomic
conditional-set-with-expiry.  Under the interleaving check(A), check(B),
commit(A), commit(B), both gateway instances see no lock, both answer
"queued" and both enqueue `c1`; the worker then dequeues both copies and
writes `c1` into `processed` (first copy succeeded) AND into `failed`
(second copy failed on both processors) — two terminal records for one
correlationId. -/
theorem create_payment_race_two_terminal_records :
    racedRun.1.response = some ⟨"queued", "c1", "api1"⟩ ∧
    racedRun.2.1.response = some ⟨"queued", "c1", "api2"⟩ ∧
    racedRun.2.2.payment_queue = ["taskA", "taskB"] ∧
    "c1" ∈ racedFinal.processed_payments ∧
    "c1" ∈ racedFinal.failed_payments := by
  decide

/-- C10: when a processing lock for the correlationId already exists,
`create_payment` answers "already_queued" with that correlationId and leaves
the store untouched: nothing is pushed on the queue, `submitted_payments` is
unchanged, and the existing lock value and expiry are not overwritten. -/
theorem create_payment_already_queued (s : Store) (cid : String) (amount : ℚ)
    (inst : String) (now : ℚ) (tj : String)
    (h : lockExists s ("processing:" ++ cid) = true) :
    create_payment s cid amount inst now tj
      = (⟨"already_queued", cid, inst⟩, s) := by
  simp [create_payment, createPaymentCheck, h]

/-- C10 (witness): payment `a` already holds a lock in `demoStore`. -/
theorem create_payment_already_queued_witness :
    lockExists demoStore "processing:a" = true ∧
    create_payment demoStore "a" 50 "api1" 0 "tj"
      = (⟨"already_queued", "a", "api1"⟩, demoStore) :=
  ⟨by decide, create_payment_already_queued demoStore "a" 50 "api1" 0 "tj" (by decide)⟩

lemma zip_get?_eq {α β : Type} :
    ∀ (l1 : List α) (l2 : List β) (i : Nat) (x : α) (y : β),
      l1.get? i = some x → l2.get? i = some y → (l1.zip l2).get? i = some (x, y) := by
  intro l1
  induction l1 with
  | nil => intro l2 i x y h1 _; simp at h1
  | cons a t ih =>
    intro l2 i x y h1 h2
    cases l2 with
    | nil => simp at h2
    | cons b t2 =>
      cases i with
      | zero =>
        simp only [List.get?] at h1 h2
        injection h1 with h1
        injection h2 with h2
        simp [List.zip_cons_cons, h1, h2]
      | succ j =>
        simp only [List.get?] at h1 h2
        simpa [List.zip_cons_cons] using ih t2 j x y h1 h2

lemma dispatchFailed_eq_not_default_ok (d : DispatchResult) :
    dispatchFailed d = !default_ok d := by
  cases d with
  | exn => rfl
  | result r => cases r with | mk b rest => cases b <;> rfl

/-- C7: every task of a decoded batch yields exactly one outcome tuple; the
fallback processor is invoked for a task iff its default dispatch did not
return success (including when it raised); and the outcome is consolidated as
(success, "default") when default succeeded, else (success, "fallback") when
the fallback attempt succeeded, else (failure, "fallback") — the
(failure, "default") branch applies only when no fallback was attempted,
which never happens for a failed default here. -/
theorem process_batch_consolidation
    (payments : List PaymentTask) (dres fres : List DispatchResult)
    (hd : dres.length = payments.length) (hf : fres.length = payments.length) :
    (process_batch_writes payments dres fres).stats_updates.length = payments.length ∧
    ∀ i pmt d f, payments.get? i = some pmt → dres.get? i = some d →
      fres.get? i = some f →
      (((fallbackAttempt d f).isSome = true) ↔ (default_ok d = false)) ∧
      (process_batch_writes payments dres fres).stats_updates.get? i =
        some (if default_ok d = true then (true, "default", pmt.correlationId, pmt.amount)
              else if default_ok f = true then (true, "fallback", pmt.correlationId, pmt.amount)
              else (false, "fallback", pmt.correlationId, pmt.amount)) := by
  constructor
  · simp [process_batch_writes, hd, hf]
  · intro i pmt d f hp hdres hfres
    constructor
    · rw [fallbackAttempt, dispatchFailed_eq_not_default_ok]
      cases default_ok d <;> simp
    · have hz := zip_get?_eq payments (dres.zip fres) i pmt (d, f) hp
        (zip_get?_eq dres fres i d f hdres hfres)
      simp only [process_batch_writes, List.get?_map, hz]
      simp only [consolidateOne, fallbackAttempt, dispatchFailed_eq_not_default_ok]
      cases hdok : default_ok d with
      | true => simp [hdok]
      | false =>
        cases hfok : default_ok f <;> simp [hdok, hfok]

/-- C7 (witness): one task whose default dispatch fails and whose fallback
succeeds. -/
theorem process_batch_consolidation_witness :
    (process_batch_writes [p1Demo] [DispatchResult.result (false, "default", "c7")]
        [DispatchResult.result (true, "fallback", "c7")]).stats_updates.length = 1 ∧
    ((((fallbackAttempt (DispatchResult.result (false, "default", "c7"))
        (DispatchResult.result (true, "fallback", "c7"))).isSome = true)
      ↔ (default_ok (DispatchResult.result (false, "default", "c7")) = false)) ∧
    (process_batch_writes [p1Demo] [DispatchResult.result (false, "default", "c7")]
        [DispatchResult.result (true, "fallback", "c7")]).stats_updates.get? 0 =
      some (if default_ok (DispatchResult.result (false, "default", "c7")) = true then
              (true, "default", p1Demo.correlationId, p1Demo.amount)
            else if default_ok (DispatchResult.result (true, "fallback", "c7")) = true then
              (true, "fallback", p1Demo.correlationId, p1Demo.amount)
            else (false, "fallback", p1Demo.correlationId, p1Demo.amount))) :=
  have h := process_batch_consolidation [p1Demo]
    [DispatchResult.result (false, "default", "c7")]
    [DispatchResult.result (true, "fallback", "c7")] rfl rfl
  ⟨h.1, h.2 0 p1Demo (DispatchResult.result (false, "default", "c7"))
    (DispatchResult.result (true, "fallback", "c7")) rfl rfl rfl⟩

lemma connectAux_eq_none_iff (ping : Nat → Bool) :
    ∀ n a, connectAux ping n a = none ↔ ∀ i, a ≤ i → i < a + n → ping i = false := by
  intro n
  induction n with
  | zero =>
    intro a
    simp only [connectAux]
    constructor
    · intro _ i h1 h2; omega
    · intro _; trivial
  | succ m ih =>
    intro a
    by_cases hp : ping a = true
    · simp only [connectAux, hp, if_true]
      constructor
      · intro h; exact absurd h (by simp)
      · intro h; exact absurd (h a le_rfl (by omega)) (by simp [hp])
    · have hp2 : ping a = false := Bool.eq_false_iff.mpr hp
      simp only [connectAux, hp2, Bool.false_eq_true, if_false]
      rw [ih (a + 1)]
      constructor
      · intro h i h1 h2
        rcases Nat.eq_or_lt_of_le h1 with rfl | hlt
        · exact hp2
        · exact h i (by omega) (by omega)
      · intro h i h1 h2
        exact h i (by omega) (by omega)

lemma connect_redis_eq_none_iff (ping : Nat → Bool) :
    connect_redis ping = none ↔ ∀ i, i < 5 → ping i = false := by
  rw [connect_redis, connectAux_eq_none_iff]
  constructor
  · intro h i hi; exact h i (by omega) (by omega)
  · intro h i h1 h2; exact h i (by omega)

/-- C3 (counterexample): with an environment missing both processor URLs and
a store that never answers, the worker does not stop: the startup iteration
sleeps 5s and retries in-process; and with a reachable store it enters the
running state despite the missing URLs.  No iteration produces a fatal
exit. -/
theorem worker_startup_not_fatal_counterexample :
    DEFAULT_PROCESSOR_URL [] = none ∧
    FALLBACK_PROCESSOR_URL [] = none ∧
    mainStartupStep [] (fun _ => false) = MainAction.sleepRetry 5 ∧
    mainStartupStep [] (fun _ => false) ≠ MainAction.exitFatal ∧
    mainStartupStep [] (fun _ => true) = MainAction.enterRunning none none := by
  decide

/-- C3 (amended): the worker never validates the processor URLs at startup,
and exhausting the 5 bounded connection attempts is not fatal:
`connect_redis` returns None exactly when all 5 attempts fail, in which case
the main loop sleeps 5 seconds and retries connecting in-process; no startup
iteration ever stops the process. -/
theorem worker_startup_retries_in_process (env : List (String × String))
    (ping : Nat → Bool) :
    (connect_redis ping = none ↔ ∀ i, i < 5 → ping i = false) ∧
    (connect_redis ping = none → mainStartupStep env ping = MainAction.sleepRetry 5) ∧
    mainStartupStep env ping ≠ MainAction.exitFatal := by
  refine ⟨connect_redis_eq_none_iff ping, fun h => by simp [mainStartupStep, h], ?_⟩
  cases hc : connect_redis ping <;> simp [mainStartupStep, hc]

/-- C3 (witness): all five connection attempts fail — the worker sleeps and
retries instead of exiting. -/
theorem worker_startup_retries_in_process_witness :
    mainStartupStep [] (fun _ => false) = MainAction.sleepRetry 5 :=
  (worker_startup_retries_in_process [] (fun _ => false)).2.1 (by decide)

/-- C9 (counterexample): decoding the legacy payload `"c1|5"` (after JSON
decoding failed) yields a task dict with exactly correlationId, amount,
timestamp and processingId — the `attempts` field is absent (`none`), not 0
as the claim states; and the processingId timestamp comes from a second
clock reading (here formatted "4"), not from the `timestamp` field (3). -/
theorem parse_payment_legacy_no_attempts :
    parse_payment none "c1|5" pfDemo 3 "4"
      = some { correlationId := "c1", amount := 5, timestamp := 3,
               processingId := "legacy:c1:4", attempts := none } ∧
    (parse_payment none "c1|5" pfDemo 3 "4").map PaymentTask.attempts
      ≠ some (some 0) := by
  constructor
  · decide
  · decide

/-- C9 (amended): for every payload whose JSON decoding fails but which
splits on `|` into exactly two fields with a parseable amount, the decoder
returns a task with that correlationId and amount, timestamp set to the
current time, processingId `legacy:<correlationId>:<t2>` where `t2` is a
second clock reading taken while formatting, and no `attempts` field. -/
theorem parse_payment_legacy (task_json cid amt_str : String)
    (parseFloat : String → Option ℚ) (q : ℚ) (now1 : ℚ) (now2_repr : String)
    (hsplit : splitPipeStr task_json = [cid, amt_str])
    (hpf : parseFloat amt_str = some q) :
    parse_payment none task_json parseFloat now1 now2_repr
      = some { correlationId := cid, amount := q, timestamp := now1,
               processingId := "legacy:" ++ cid ++ ":" ++ now2_repr,
               attempts := none } := by
  simp [parse_payment, hsplit, hpf]

/-- C9 (witness for the amended theorem). -/
theorem parse_payment_legacy_witness :
    parse_payment none "c1|5" pfDemo 3 "t2"
      = some { correlationId := "c1", amount := 5, timestamp := 3,
               processingId := "legacy:" ++ "c1" ++ ":" ++ "t2",
               attempts := none } :=
  parse_payment_legacy "c1|5" "c1" "5" pfDemo 5 3 "t2" (by decide) (by norm_num [pfDemo])

end PaymentSystem
